import Mathlib

/-!
Verification development for a small Open Library search client
(src/lib/open_library_api.py).

The Python module defines one class, `Search`, with:
  - `_build_url(search_term, fields=None, limit=None)` — pure URL construction;
  - `get_search_results(search_term)` — HTTP GET returning raw bytes,
    degrading to the empty byte string on any `requests` failure;
  - `get_search_results_json(search_term, fields=None, limit=None)` — HTTP GET
    returning the decoded JSON body, degrading to the empty dict on any
    `requests` failure (including JSON decode errors, which `requests`
    raises as `requests.exceptions.JSONDecodeError`, a subclass of
    `RequestException`);
  - `get_user_search_results(search_term)` — formats the first document of the
    JSON result, with a catch-all `except Exception` returning a generic
    error string;
and a `__main__` interactive loop.

The embedding models Python exceptions with `Except PyExn`, the network with
an abstract `Transport` (a function from URL to the outcome of
`session.get`), and decoded JSON values with an inductive `JSON` type.  A
response carries both its raw byte content and the result of decoding it as
JSON (`none` when the body is malformed), so the JSON parser itself stays
abstract.
-/

namespace OpenLibraryApi

/-- Decoded JSON values (Python objects produced by `response.json()`).
Numbers are modelled as integers; the claims never touch float payloads. -/
inductive JSON where
  | null
  | bool (b : Bool)
  | num (n : Int)
  | str (s : String)
  | arr (elems : List JSON)
  | obj (fields : List (String × JSON))
deriving Repr

/-- Python exceptions that the embedded code can raise.  The first three are
subclasses of `requests.exceptions.RequestException`; `jsonDecodeError` is
`requests.exceptions.JSONDecodeError`, a `RequestException` subclass since
requests 2.27. -/
inductive PyExn where
  | connectionError
  | httpError
  | jsonDecodeError
  | keyError
  | indexError
  | typeError
  | attributeError
deriving Repr, DecidableEq

/-- Which of the modelled exceptions are `requests.exceptions.RequestException`
(the class caught by `except requests.exceptions.RequestException`). -/
def isRequestException : PyExn → Bool
  | .connectionError => true
  | .httpError => true
  | .jsonDecodeError => true
  | _ => false

/-- Python truthiness (`bool(x)`) of a decoded JSON value: `None`, `False`,
`0`, the empty string, the empty list and the empty dict are falsy. -/
def truthy : JSON → Bool
  | .null => false
  | .bool b => b
  | .num n => n != 0
  | .str s => !s.isEmpty
  | .arr elems => !elems.isEmpty
  | .obj fields => !fields.isEmpty

/-- Key lookup in a decoded JSON object, as a Python dict lookup.  Decoded
dicts have unique keys, so first-match lookup is faithful. -/
def jlookup : List (String × JSON) → String → Option JSON
  | [], _ => none
  | (k, v) :: rest, key => if k = key then some v else jlookup rest key

mutual
/-- Python `repr` of a decoded JSON value.  Strings are rendered between
single quotes; Python switches to double quotes when the text itself
contains a single quote, a corner the claims never reach. -/
def pyRepr : JSON → String
  | .null => "None"
  | .bool true => "True"
  | .bool false => "False"
  | .num n => toString n
  | .str s => "\x27" ++ s ++ "\x27"
  | .arr elems => "[" ++ String.intercalate ", " (pyReprList elems) ++ "]"
  | .obj fields => "\x7b" ++ String.intercalate ", " (pyReprObj fields) ++ "\x7d"

/-- `repr` of each element of a Python list. -/
def pyReprList : List JSON → List String
  | [] => []
  | x :: xs => pyRepr x :: pyReprList xs

/-- `repr` of each key-value pair of a Python dict. -/
def pyReprObj : List (String × JSON) → List String
  | [] => []
  | (k, v) :: rest => ("\x27" ++ k ++ "\x27: " ++ pyRepr v) :: pyReprObj rest
end

/-- Python `str` of a decoded JSON value, as used when the value is
interpolated into an f-string: a `str` stays itself, everything else
renders as its `repr` (`str` and `repr` agree on `None`, booleans, integers,
lists and dicts). -/
def pyStr : JSON → String
  | .str s => s
  | j => pyRepr j

/-- Python `dict.get(key, default)`.  Calling `.get` on a non-dict raises
`AttributeError`. -/
def dictGet (j : JSON) (key : String) (default : JSON) : Except PyExn JSON :=
  match j with
  | .obj fields => .ok ((jlookup fields key).getD default)
  | _ => .error .attributeError

/-- Python subscript `j[key]` with a string key: `KeyError` when the key is
absent from a dict, `TypeError` on values that do not support string
subscripts. -/
def pySubscript (j : JSON) (key : String) : Except PyExn JSON :=
  match j with
  | .obj fields =>
      match jlookup fields key with
      | some v => .ok v
      | none => .error .keyError
  | _ => .error .typeError

/-- Python subscript `j[0]`: first element of a list (or `IndexError` when
empty), first character of a string (or `IndexError` when empty), `KeyError`
on a dict of string keys, `TypeError` otherwise. -/
def pyIndex0 : JSON → Except PyExn JSON
  | .arr [] => .error .indexError
  | .arr (x :: _) => .ok x
  | .str s => if s.isEmpty then .error .indexError else .ok (.str (s.take 1))
  | .obj _ => .error .keyError
  | _ => .error .typeError

/-- An HTTP response as seen through `requests`: its status code, its raw
byte content, and the result of decoding that content as JSON (`none` when
the body is not well-formed JSON, in which case `response.json()` raises). -/
structure HTTPResponse where
  status : Nat
  content : List Nat
  jsonBody : Option JSON

/-- Outcome of one `session.get(url)` call: either a raised transport
exception (connection error, timeout, ...) or a response. -/
inductive TransportResult where
  | exn
  | ok (r : HTTPResponse)

/-- The network as an oracle: what `session.get` yields for each URL. -/
def Transport := String → TransportResult

/-- `session.get(url)` within a try block. -/
def sessionGet (tr : Transport) (url : String) : Except PyExn HTTPResponse :=
  match tr url with
  | .exn => .error .connectionError
  | .ok r => .ok r

/-- `response.raise_for_status()`: raises `requests.exceptions.HTTPError`
exactly for 4xx and 5xx status codes. -/
def raise_for_status (r : HTTPResponse) : Except PyExn Unit :=
  if 400 ≤ r.status ∧ r.status < 600 then .error .httpError else .ok ()

/-- `response.json()`: the decoded body, or
`requests.exceptions.JSONDecodeError` when the body is malformed. -/
def response_json (r : HTTPResponse) : Except PyExn JSON :=
  match r.jsonBody with
  | some j => .ok j
  | none => .error .jsonDecodeError

/-- `Search.BASE_URL`. -/
def BASE_URL : String := "https://openlibrary.org/search.json"

/-- `Search.DEFAULT_FIELDS`. -/
def DEFAULT_FIELDS : List String := ["title", "author_name"]

/-- `Search.DEFAULT_LIMIT`. -/
def DEFAULT_LIMIT : Int := 1

/-- `search_term.replace(" ", "+")`: the pattern is the single character
`' '`, so the call maps every space to `'+'` and leaves every other
character unchanged. -/
def replaceSpaces (s : String) : String :=
  String.mk (s.data.map fun c => if c = ' ' then '+' else c)

/-- `Search._build_url(search_term, fields=None, limit=None)`.  `fields or
self.DEFAULT_FIELDS` substitutes the default when the argument is `None` or
falsy (the empty list); `limit or self.DEFAULT_LIMIT` substitutes the
default when the argument is `None` or falsy (`0`). -/
def _build_url (search_term : String) (fields : Option (List String))
    (limit : Option Int) : String :=
  let search_term_formatted := replaceSpaces search_term
  let fields' := match fields with
    | none => DEFAULT_FIELDS
    | some fs => if fs.isEmpty then DEFAULT_FIELDS else fs
  let limit' := match limit with
    | none => DEFAULT_LIMIT
    | some l => if l = 0 then DEFAULT_LIMIT else l
  let fields_formatted := String.intercalate "," fields'
  BASE_URL ++ "?title=" ++ search_term_formatted ++ "&fields=" ++
    fields_formatted ++ "&limit=" ++ toString limit'

/-- The try block of `Search.get_search_results`: build the URL, perform the
GET, raise for a bad status, return the raw content. -/
def get_search_results_try (tr : Transport) (search_term : String) :
    Except PyExn (List Nat) :=
  match sessionGet tr (_build_url search_term none none) with
  | .error e => .error e
  | .ok response =>
    match raise_for_status response with
    | .error e => .error e
    | .ok _ => .ok response.content

/-- `Search.get_search_results(search_term)`: the try block with
`except requests.exceptions.RequestException` returning `b''`. -/
def get_search_results (tr : Transport) (search_term : String) :
    Except PyExn (List Nat) :=
  match get_search_results_try tr search_term with
  | .ok v => .ok v
  | .error e => if isRequestException e then .ok [] else .error e

/-- The try block of `Search.get_search_results_json` (the
`print(f"Request URL: ...")` diagnostic touches no data). -/
def get_search_results_json_try (tr : Transport) (search_term : String)
    (fields : Option (List String)) (limit : Option Int) :
    Except PyExn JSON :=
  match sessionGet tr (_build_url search_term fields limit) with
  | .error e => .error e
  | .ok response =>
    match raise_for_status response with
    | .error e => .error e
    | .ok _ => response_json response

/-- `Search.get_search_results_json(search_term, fields=None, limit=None)`:
the try block with `except requests.exceptions.RequestException` returning
the empty dict. -/
def get_search_results_json (tr : Transport) (search_term : String)
    (fields : Option (List String)) (limit : Option Int) :
    Except PyExn JSON :=
  match get_search_results_json_try tr search_term fields limit with
  | .ok v => .ok v
  | .error e => if isRequestException e then .ok (.obj []) else .error e

/-- `"No results found."`. -/
def NO_RESULTS : String := "No results found."

/-- `"An error occurred while processing your request."`. -/
def GENERIC_ERROR : String := "An error occurred while processing your request."

/-- The try block of `Search.get_user_search_results`:
`response = self.get_search_results_json(search_term)`;
`if not response.get(\x27docs\x27): return "No results found."`;
`book = response[\x27docs\x27][0]`;
`title = book.get(\x27title\x27, \x27Unknown Title\x27)`;
`author = book.get(\x27author_name\x27, [\x27Unknown Author\x27])[0]`;
`return f"Title: ...\nAuthor: ..."`. -/
def get_user_search_results_try (tr : Transport) (search_term : String) :
    Except PyExn String :=
  match get_search_results_json tr search_term none none with
  | .error e => .error e
  | .ok response =>
    match dictGet response "docs" .null with
    | .error e => .error e
    | .ok docsProbe =>
      if !truthy docsProbe then .ok NO_RESULTS
      else
        match pySubscript response "docs" with
        | .error e => .error e
        | .ok docs =>
          match pyIndex0 docs with
          | .error e => .error e
          | .ok book =>
            match dictGet book "title" (.str "Unknown Title") with
            | .error e => .error e
            | .ok title =>
              match dictGet book "author_name" (.arr [.str "Unknown Author"]) with
              | .error e => .error e
              | .ok authors =>
                match pyIndex0 authors with
                | .error e => .error e
                | .ok author =>
                  .ok ("Title: " ++ pyStr title ++ "\nAuthor: " ++ pyStr author)

/-- `Search.get_user_search_results(search_term)`: the try block with a
catch-all `except Exception` returning the generic error string. -/
def get_user_search_results (tr : Transport) (search_term : String) :
    Except PyExn String :=
  match get_user_search_results_try tr search_term with
  | .ok v => .ok v
  | .error _ => .ok GENERIC_ERROR

/-- Python `str.lower()`, character by character.  Lean lowercases ASCII
letters only; the comparison target `"quit"` is ASCII, and no non-ASCII
character lowercases to a single ASCII `q`, `u`, `i` or `t`. -/
def pyLower (s : String) : String := String.mk (s.data.map Char.toLower)

/-- The characters Python `str.isspace()` holds for, which are exactly the
characters `str.strip()` strips: the ASCII whitespace `\t`, `\n`, `\v`,
`\f`, `\r`, space, the separator controls U+001C-U+001F, next line U+0085,
no-break space U+00A0, Ogham space mark U+1680, the typographic spaces
U+2000-U+200A, line separator U+2028, paragraph separator U+2029, narrow
no-break space U+202F, medium mathematical space U+205F, and ideographic
space U+3000. -/
def isPySpace (c : Char) : Bool :=
  c = ' ' || c = '\t' || c = '\n' || c = '\r' || c = '\x0b' || c = '\x0c' ||
  (0x1c ≤ c.val && c.val ≤ 0x1f) || c.val = 0x85 || c.val = 0xa0 ||
  c.val = 0x1680 || (0x2000 ≤ c.val && c.val ≤ 0x200a) ||
  c.val = 0x2028 || c.val = 0x2029 || c.val = 0x202f || c.val = 0x205f ||
  c.val = 0x3000

/-- Python `str.strip()`: remove leading and trailing whitespace. -/
def pyStrip (s : String) : String :=
  String.mk (((s.data.dropWhile isPySpace).reverse.dropWhile isPySpace).reverse)

/-- What one iteration of the `__main__` loop does with the line read from
standard input. -/
inductive LoopAction where
  | exit
  | reprompt (msg : String)
  | search (term : String)
deriving Repr, DecidableEq

/-- One iteration of the `__main__` loop body:
`if search_term.lower() == \x27quit\x27: break`;
`if not search_term.strip(): print("Please enter a valid book title."); continue`;
otherwise `search.get_user_search_results(search_term)` is called. -/
def loop_step (line : String) : LoopAction :=
  if pyLower line = "quit" then .exit
  else if (pyStrip line).isEmpty then .reprompt "Please enter a valid book title."
  else .search line

/-- A transport-level failure as the claims describe it: `session.get`
raises, or the response status makes `raise_for_status` raise. -/
def TransportFails : TransportResult → Prop
  | .exn => True
  | .ok r => 400 ≤ r.status ∧ r.status < 600

/-! ### Concrete transports, used to instantiate the theorems -/

/-- A network where every GET raises a connection error. -/
def trFail : Transport := fun _ => .exn

/-- A network answering 200 with a body that is not well-formed JSON. -/
def trBadJson : Transport := fun _ => .ok ⟨200, [110, 111], none⟩

/-- A network answering 200 with a JSON body that is a list, not a dict. -/
def trList : Transport := fun _ => .ok ⟨200, [], some (.arr [])⟩

/-- A network answering 200 with one document for "Dune" with two authors. -/
def trDune : Transport := fun _ =>
  .ok ⟨200, [], some (.obj [("docs", .arr [.obj
    [("title", .str "Dune"),
     ("author_name", .arr [.str "Frank Herbert", .str "Other"])]])])⟩

/-- A network answering 200 with one document whose author list is empty. -/
def trEmptyAuthors : Transport := fun _ =>
  .ok ⟨200, [], some (.obj [("docs", .arr [.obj
    [("title", .str "Dune"), ("author_name", .arr [])]])])⟩

/-! ### Helper lemmas -/

/-- `sessionGet` only raises the connection error. -/
theorem sessionGet_error (tr : Transport) (url : String) (e : PyExn)
    (h : sessionGet tr url = .error e) : e = .connectionError := by
  unfold sessionGet at h
  cases htr : tr url <;> rw [htr] at h <;> simp_all

/-- `raise_for_status` only raises the HTTP error. -/
theorem raise_for_status_error (r : HTTPResponse) (e : PyExn)
    (h : raise_for_status r = .error e) : e = .httpError := by
  unfold raise_for_status at h
  split at h <;> simp_all

/-- `response.json()` only raises the JSON decode error. -/
theorem response_json_error (r : HTTPResponse) (e : PyExn)
    (h : response_json r = .error e) : e = .jsonDecodeError := by
  unfold response_json at h
  split at h <;> simp_all

/-- Every exception the try block of `get_search_results` can raise is a
`RequestException`. -/
theorem get_search_results_try_error (tr : Transport) (s : String) (e : PyExn)
    (h : get_search_results_try tr s = .error e) : isRequestException e = true := by
  unfold get_search_results_try at h
  split at h
  · rename_i e' he
    cases h
    rw [sessionGet_error _ _ _ he]; rfl
  · split at h
    · rename_i e' he
      cases h
      rw [raise_for_status_error _ _ he]; rfl
    · cases h

/-- Every exception the try block of `get_search_results_json` can raise is
a `RequestException`. -/
theorem get_search_results_json_try_error (tr : Transport) (s : String)
    (fields : Option (List String)) (limit : Option Int) (e : PyExn)
    (h : get_search_results_json_try tr s fields limit = .error e) :
    isRequestException e = true := by
  unfold get_search_results_json_try at h
  split at h
  · rename_i e' he
    cases h
    rw [sessionGet_error _ _ _ he]; rfl
  · split at h
    · rename_i e' he
      cases h
      rw [raise_for_status_error _ _ he]; rfl
    · rw [response_json_error _ _ h]; rfl

/-- `get_search_results` never propagates an exception. -/
theorem get_search_results_total (tr : Transport) (s : String) :
    ∃ b, get_search_results tr s = .ok b := by
  unfold get_search_results
  cases h : get_search_results_try tr s with
  | ok v => exact ⟨v, rfl⟩
  | error e => exact ⟨[], by simp [get_search_results_try_error tr s e h]⟩

/-- `get_search_results_json` never propagates an exception. -/
theorem get_search_results_json_total (tr : Transport) (s : String)
    (fields : Option (List String)) (limit : Option Int) :
    ∃ j, get_search_results_json tr s fields limit = .ok j := by
  unfold get_search_results_json
  cases h : get_search_results_json_try tr s fields limit with
  | ok v => exact ⟨v, rfl⟩
  | error e =>
    exact ⟨.obj [], by simp [get_search_results_json_try_error tr s fields limit e h]⟩

/-! ### Claims -/

/-- C1: every public operation of the client (`get_search_results`,
`get_search_results_json`, `get_user_search_results`) is total — for every
transport behaviour and every input it returns a value and no exception
propagates past its own boundary — and any exception raised during
extraction in `get_user_search_results` is caught, the operation returning
the generic error string. -/
theorem C1_public_operations_total (tr : Transport) (s : String)
    (fields : Option (List String)) (limit : Option Int) (e : PyExn) :
    (∃ b, get_search_results tr s = .ok b) ∧
    (∃ j, get_search_results_json tr s fields limit = .ok j) ∧
    (∃ out, get_user_search_results tr s = .ok out) ∧
    (get_user_search_results_try tr s = .error e →
      get_user_search_results tr s =
        .ok "An error occurred while processing your request.") := by
  refine ⟨get_search_results_total tr s,
    get_search_results_json_total tr s fields limit, ?_, ?_⟩
  · unfold get_user_search_results
    cases h : get_user_search_results_try tr s with
    | ok v => exact ⟨v, rfl⟩
    | error e' => exact ⟨GENERIC_ERROR, rfl⟩
  · intro h
    unfold get_user_search_results
    rw [h]
    rfl

/-- C1 witness: with a transport whose JSON body is a list, the extraction
raises `AttributeError` on `.get`, and the operation returns the generic
error string. -/
theorem C1_public_operations_total_witness :
    get_user_search_results trList "dune" =
      .ok "An error occurred while processing your request." :=
  (C1_public_operations_total trList "dune" none none .attributeError).2.2.2 rfl

/-- C2: whenever the transport fails for the requested URL (a raised
connection error, or a 4xx/5xx status that makes `raise_for_status` raise),
`get_search_results` returns the empty byte string and
`get_search_results_json` returns the empty mapping, and neither operation
propagates an error. -/
theorem C2_transport_failure_degrades (tr : Transport) (s : String)
    (fields : Option (List String)) (limit : Option Int)
    (h1 : TransportFails (tr (_build_url s none none)))
    (h2 : TransportFails (tr (_build_url s fields limit))) :
    get_search_results tr s = .ok [] ∧
    get_search_results_json tr s fields limit = .ok (.obj []) := by
  constructor
  · rcases htr : tr (_build_url s none none) with _ | r
    · simp [get_search_results, get_search_results_try, sessionGet, htr,
        isRequestException]
    · rw [htr] at h1
      replace h1 : 400 ≤ r.status ∧ r.status < 600 := h1
      simp [get_search_results, get_search_results_try, sessionGet, htr,
        raise_for_status, h1, isRequestException]
  · rcases htr : tr (_build_url s fields limit) with _ | r
    · simp [get_search_results_json, get_search_results_json_try, sessionGet, htr,
        isRequestException]
    · rw [htr] at h2
      replace h2 : 400 ≤ r.status ∧ r.status < 600 := h2
      simp [get_search_results_json, get_search_results_json_try, sessionGet, htr,
        raise_for_status, h2, isRequestException]

/-- C2 witness: with a transport that always raises, both operations return
their empty sentinel values. -/
theorem C2_transport_failure_degrades_witness :
    get_search_results trFail "dune" = .ok [] ∧
    get_search_results_json trFail "dune" none none = .ok (.obj []) :=
  C2_transport_failure_degrades trFail "dune" none none True.intro True.intro

/-- C3: with a non-empty field list and a non-zero limit, `_build_url` is
exactly the base URL followed by the title with every space replaced by `+`
and no other character escaped, the comma-joined field list, and the
limit. -/
theorem C3_build_url_exact (t : String) (fs : List String) (l : Int)
    (hfs : fs ≠ []) (hl : l ≠ 0) :
    _build_url t (some fs) (some l) =
      "https://openlibrary.org/search.json?title=" ++ replaceSpaces t ++
        "&fields=" ++ String.intercalate "," fs ++ "&limit=" ++ toString l := by
  cases fs with
  | nil => exact absurd rfl hfs
  | cons a as =>
    simp only [_build_url]
    rw [if_neg hl]
    rfl

/-- C3 witness: a concrete title with a space, field list and limit. -/
theorem C3_build_url_exact_witness :
    _build_url "dune messiah" (some ["title"]) (some 5) =
      "https://openlibrary.org/search.json?title=dune+messiah&fields=title&limit=5" :=
  C3_build_url_exact "dune messiah" ["title"] 5 (by decide) (by decide)

/-- C4: when the decoded response has a non-empty `docs` list whose first
element is a document, `get_user_search_results` formats that first document
only: the title field (or "Unknown Title" when absent) and the first author
(or "Unknown Author" when the field is absent), ignoring later authors. -/
theorem C4_first_result_formatting (tr : Transport) (s : String)
    (m bm : List (String × JSON)) (rest : List JSON) (T A : String)
    (hresp : get_search_results_json tr s none none = .ok (.obj m))
    (hdocs : jlookup m "docs" = some (.arr (.obj bm :: rest)))
    (htitle : jlookup bm "title" = some (.str T) ∨
      (jlookup bm "title" = none ∧ T = "Unknown Title"))
    (hauthor : (∃ more, jlookup bm "author_name" = some (.arr (.str A :: more))) ∨
      (jlookup bm "author_name" = none ∧ A = "Unknown Author")) :
    get_user_search_results tr s = .ok ("Title: " ++ T ++ "\nAuthor: " ++ A) := by
  rcases htitle with ht | ⟨ht, hT⟩ <;>
    rcases hauthor with ⟨more, ha⟩ | ⟨ha, hA⟩ <;>
    subst_vars <;>
    simp [get_user_search_results, get_user_search_results_try, hresp, dictGet,
      hdocs, truthy, pySubscript, pyIndex0, pyStr, ht, ha]

/-- C4 witness: the "Dune" document with two authors yields
"Title: Dune\nAuthor: Frank Herbert", using only the first author. -/
theorem C4_first_result_formatting_witness :
    get_user_search_results trDune "dune" = .ok "Title: Dune\nAuthor: Frank Herbert" :=
  C4_first_result_formatting trDune "dune"
    [("docs", .arr [.obj [("title", .str "Dune"),
      ("author_name", .arr [.str "Frank Herbert", .str "Other"])]])]
    [("title", .str "Dune"),
      ("author_name", .arr [.str "Frank Herbert", .str "Other"])]
    [] "Dune" "Frank Herbert" rfl rfl (Or.inl rfl)
    (Or.inl ⟨[.str "Other"], rfl⟩)

/-- C5: whenever the decoded response has an empty or absent `docs` entry —
in particular when the fetch degraded to the empty mapping after a request
failure — `get_user_search_results` returns exactly "No results found.". -/
theorem C5_no_results_sentinel (tr : Transport) (s : String)
    (m : List (String × JSON))
    (hresp : get_search_results_json tr s none none = .ok (.obj m))
    (hdocs : jlookup m "docs" = none ∨ jlookup m "docs" = some (.arr [])) :
    get_user_search_results tr s = .ok "No results found." := by
  rcases hdocs with h | h <;>
    simp [get_user_search_results, get_user_search_results_try, hresp, dictGet, h,
      truthy, NO_RESULTS]

/-- C5 witness: a failed request degrades to the empty mapping and the
formatted result is "No results found.", indistinguishable from an empty
search result. -/
theorem C5_no_results_sentinel_witness :
    get_user_search_results trFail "dune" = .ok "No results found." :=
  C5_no_results_sentinel trFail "dune" [] rfl (Or.inl rfl)

/-- C6: when the GET succeeds with a non-error status but the body is not
well-formed JSON, `get_search_results_json` follows the same degrade path as
a transport failure and returns the empty mapping rather than raising
(`response.json()` raises `requests.exceptions.JSONDecodeError`, a
`RequestException`, which the except clause catches). -/
theorem C6_decode_failure_empty_mapping (tr : Transport) (s : String)
    (fields : Option (List String)) (limit : Option Int) (r : HTTPResponse)
    (htr : tr (_build_url s fields limit) = .ok r)
    (hst : ¬(400 ≤ r.status ∧ r.status < 600))
    (hbody : r.jsonBody = none) :
    get_search_results_json tr s fields limit = .ok (.obj []) := by
  simp [get_search_results_json, get_search_results_json_try, sessionGet, htr,
    raise_for_status, hst, response_json, hbody, isRequestException]

/-- C6 witness: a 200 response with a malformed body yields the empty
mapping. -/
theorem C6_decode_failure_empty_mapping_witness :
    get_search_results_json trBadJson "dune" none none = .ok (.obj []) :=
  C6_decode_failure_empty_mapping trBadJson "dune" none none
    ⟨200, [110, 111], none⟩ rfl (by decide) rfl

/-- C7: `_build_url` called without an explicit fields argument uses exactly
"title,author_name" as the fields parameter, whatever the limit argument is;
and called without an explicit limit argument it uses exactly "1" as the
limit parameter, whatever the fields argument is. -/
theorem C7_build_url_defaults (t : String) (fields : Option (List String))
    (limit : Option Int) :
    (∃ L, _build_url t none limit =
      "https://openlibrary.org/search.json?title=" ++ replaceSpaces t ++
        "&fields=" ++ "title,author_name" ++ "&limit=" ++ L) ∧
    (∃ F, _build_url t fields none =
      "https://openlibrary.org/search.json?title=" ++ replaceSpaces t ++
        "&fields=" ++ F ++ "&limit=" ++ "1") :=
  ⟨⟨_, rfl⟩, ⟨_, rfl⟩⟩

/-- C8: one iteration of the interactive loop exits exactly when the line
lowercases to "quit"; it re-prompts with the validation message exactly when
the line is not a quit command and strips to the empty string; and it
performs a search exactly in the remaining case.  The quit comparison comes
first: the emptiness outcome applies only to non-quit lines. -/
theorem C8_loop_step_classification (line : String) :
    (loop_step line = .exit ↔ pyLower line = "quit") ∧
    (loop_step line = .reprompt "Please enter a valid book title." ↔
      (pyLower line ≠ "quit" ∧ pyStrip line = "")) ∧
    (loop_step line = .search line ↔
      (pyLower line ≠ "quit" ∧ pyStrip line ≠ "")) := by
  unfold loop_step
  by_cases h1 : pyLower line = "quit"
  · simp [h1]
  · by_cases h2 : pyStrip line = ""
    · have h2' : ("" : String).isEmpty = true := rfl
      simp [h1, h2, h2']
    · have h2' : (pyStrip line).isEmpty = false := by
        cases hb : (pyStrip line).isEmpty
        · rfl
        · exact absurd ((String.isEmpty_iff _).mp hb) h2
      simp [h1, h2, h2']

/-- C9: when the first document carries an `author_name` field that is
present but an empty list, indexing `[0]` raises `IndexError`, the catch-all
returns the generic error string, and the "Unknown Author" fallback does not
apply (it is the `.get` default, used only when the field is absent). -/
theorem C9_empty_author_list_generic_error (tr : Transport) (s : String)
    (m bm : List (String × JSON)) (rest : List JSON)
    (hresp : get_search_results_json tr s none none = .ok (.obj m))
    (hdocs : jlookup m "docs" = some (.arr (.obj bm :: rest)))
    (hauthor : jlookup bm "author_name" = some (.arr [])) :
    get_user_search_results tr s =
      .ok "An error occurred while processing your request." := by
  simp [get_user_search_results, get_user_search_results_try, hresp, dictGet,
    hdocs, truthy, pySubscript, pyIndex0, hauthor, GENERIC_ERROR]

/-- C9 witness: a document with `"author_name": []` yields the generic error
string, not "Unknown Author". -/
theorem C9_empty_author_list_generic_error_witness :
    get_user_search_results trEmptyAuthors "dune" =
      .ok "An error occurred while processing your request." :=
  C9_empty_author_list_generic_error trEmptyAuthors "dune"
    [("docs", .arr [.obj [("title", .str "Dune"), ("author_name", .arr [])]])]
    [("title", .str "Dune"), ("author_name", .arr [])] [] rfl rfl rfl

/-- C10: `_build_url` silently replaces falsy arguments with the defaults:
an empty fields list, or a limit of 0, yields exactly the same URL as
omitting that argument. -/
theorem C10_falsy_args_use_defaults (t : String) (fs : Option (List String))
    (l : Option Int) :
    _build_url t (some []) l = _build_url t none l ∧
    _build_url t fs (some 0) = _build_url t fs none ∧
    _build_url t (some []) (some 0) = _build_url t none none :=
  ⟨rfl, rfl, rfl⟩

end OpenLibraryApi
